import Mathlib

/-!
Shallow embedding of the EscrowX submission pipeline and matching engine.

Sources embedded:
- src/src/app/profile/page.tsx : ProfilePage.onSubmit (attachment validation and
  IPFS publish), PostJobPage.onSubmit, computeMatch, getTopMatches, MOCK_SERVICES.
- src/unnamed/part_000 (the IPFS client) : uploadJSONToIPFS, uploadFilesToIPFS.

Modelling conventions: a browser File is a name plus a byte size; the network is an
oracle answering each issued call; JS number arithmetic on the small integers and
decimal amounts involved is modelled as exact rational arithmetic, and Math.round
on nonnegative arguments is round half up.
-/

namespace EscrowX

instance {ε α : Type} [DecidableEq ε] [DecidableEq α] : DecidableEq (Except ε α) :=
  fun a b =>
    match a, b with
    | .ok x, .ok y => if h : x = y then .isTrue (by rw [h]) else .isFalse (by simp [h])
    | .error x, .error y => if h : x = y then .isTrue (by rw [h]) else .isFalse (by simp [h])
    | .ok _, .error _ => .isFalse (by simp)
    | .error _, .ok _ => .isFalse (by simp)

/-- File as seen by the validation code: name and byte size. -/
structure SubmitFile where
  name : String
  size : Nat
deriving DecidableEq

/-- Mirrors checkSize in ProfilePage.onSubmit: `f.size <= maxMB * 1024 * 1024`. -/
def checkSize (f : SubmitFile) (maxMB : Nat) : Bool :=
  f.size ≤ maxMB * 1024 * 1024

/-- Validation errors set via setAttErr followed by an early return. -/
inductive AttErr where
  | certTooLarge
  | portfolioTooLarge
  | picTooLarge
  | jobAttachTooLarge
deriving DecidableEq

/-- Files collected by the validation loops of ProfilePage.onSubmit. -/
structure Collected where
  certFiles : List SubmitFile
  pfFiles : List SubmitFile
  profilePic : List SubmitFile
deriving DecidableEq

/-- Validation phase of ProfilePage.onSubmit: each list is scanned in order and the
first file over 5MB aborts with the corresponding error; for the profile picture
only item 0 is examined, and it is collected only when the list is nonempty. -/
def profileValidate (certs pfs pics : List SubmitFile) : Except AttErr Collected :=
  match certs.find? (fun f => !checkSize f 5) with
  | some _ => .error .certTooLarge
  | none =>
    match pfs.find? (fun f => !checkSize f 5) with
    | some _ => .error .portfolioTooLarge
    | none =>
      match pics with
      | [] => .ok ⟨certs, pfs, []⟩
      | p :: _ =>
        if checkSize p 5 then .ok ⟨certs, pfs, [p]⟩
        else .error .picTooLarge

/-- Validation phase of PostJobPage.onSubmit: the first attachment with
`f.size > 10 * 1024 * 1024` aborts. -/
def jobValidate (files : List SubmitFile) : Except AttErr (List SubmitFile) :=
  match files.find? (fun f => decide (10 * 1024 * 1024 < f.size)) with
  | some _ => .error .jobAttachTooLarge
  | none => .ok files

/-- Manifest document assembled by ProfilePage.onSubmit; the profile fields and the
createdAt timestamp are opaque to every claim and omitted. -/
structure ProfileDoc where
  certCid : Option String
  portCid : Option String
  picCid : Option String
deriving DecidableEq

/-- Manifest document assembled by PostJobPage.onSubmit; the job fields and the
createdAt timestamp are opaque to every claim and omitted. -/
structure JobDoc where
  attachmentsCid : Option String
deriving DecidableEq

/-- Record of the network calls issued during one publish run: the argument of each
uploadFilesToIPFS call in order, and the argument of each uploadJSONToIPFS call. -/
structure Calls (δ : Type) where
  batches : List (List SubmitFile)
  docs : List δ
deriving DecidableEq

/-- Mirrors the conditional batch upload `cond.length ? await uploadFilesToIPFS(batch) : null`.
The uploader oracle `ub` answers the n-th issued batch call of the run; the call is
recorded whenever it is issued, whatever its outcome. -/
def optUpload {δ : Type} (ub : Nat → Except String String) (cond : List SubmitFile)
    (batch : List SubmitFile) (s : Calls δ) : Except String (Option String) × Calls δ :=
  if cond.isEmpty then (.ok none, s)
  else ((ub s.batches.length).map some, { s with batches := s.batches ++ [batch] })

/-- Publish errors: a validation error shown via setAttErr, or a thrown upload error
caught by the catch block. -/
inductive PubErr where
  | validation (e : AttErr)
  | upload (msg : String)
deriving DecidableEq

/-- Final manifest upload `await uploadJSONToIPFS(doc)`: the document oracle `ud`
answers the call; the call is recorded, a thrown error becomes an upload error. -/
def docStep {δ : Type} (ud : δ → Except String String) (doc : δ) (s : Calls δ) :
    Except PubErr String × Calls δ :=
  ((ud doc).mapError .upload, { s with docs := s.docs ++ [doc] })

/-- Upload phase of ProfilePage.onSubmit (the try block): certifications, then the
portfolio truncated by `pfFiles.slice(0, 10)`, then the profile picture, then the
manifest via uploadJSONToIPFS; a thrown error aborts the remaining steps. -/
def publishProfile (ub : Nat → Except String String) (ud : ProfileDoc → Except String String)
    (c : Collected) (s : Calls ProfileDoc) : Except PubErr String × Calls ProfileDoc :=
  match optUpload ub c.certFiles c.certFiles s with
  | (.error e, s1) => (.error (.upload e), s1)
  | (.ok certCid, s1) =>
    match optUpload ub c.pfFiles (c.pfFiles.take 10) s1 with
    | (.error e, s2) => (.error (.upload e), s2)
    | (.ok portCid, s2) =>
      match optUpload ub c.profilePic c.profilePic s2 with
      | (.error e, s3) => (.error (.upload e), s3)
      | (.ok picCid, s3) => docStep ud ⟨certCid, portCid, picCid⟩ s3

/-- Whole ProfilePage.onSubmit: validation, then on success the upload phase starting
from an empty call record; a validation failure returns before any upload code runs. -/
def onSubmitProfile (ub : Nat → Except String String) (ud : ProfileDoc → Except String String)
    (certs pfs pics : List SubmitFile) : Except PubErr String × Calls ProfileDoc :=
  match profileValidate certs pfs pics with
  | .error e => (.error (.validation e), ⟨[], []⟩)
  | .ok c => publishProfile ub ud c ⟨[], []⟩

/-- Upload phase of PostJobPage.onSubmit: one optional attachments batch, then the
job manifest via uploadJSONToIPFS. -/
def publishJob (ub : Nat → Except String String) (ud : JobDoc → Except String String)
    (files : List SubmitFile) (s : Calls JobDoc) : Except PubErr String × Calls JobDoc :=
  match optUpload ub files files s with
  | (.error e, s1) => (.error (.upload e), s1)
  | (.ok attCid, s1) => docStep ud ⟨attCid⟩ s1

/-- Whole PostJobPage.onSubmit. -/
def onSubmitJob (ub : Nat → Except String String) (ud : JobDoc → Except String String)
    (files : List SubmitFile) : Except PubErr String × Calls JobDoc :=
  match jobValidate files with
  | .error e => (.error (.validation e), ⟨[], []⟩)
  | .ok fs => publishJob ub ud fs ⟨[], []⟩

/-! ### The IPFS client (src/unnamed/part_000) -/

/-- Process environment as read by the IPFS client. -/
structure Env where
  token : Option String
deriving DecidableEq

/-- Outcome of one fetch to the storage provider. -/
inductive FetchOutcome where
  | ok (cid : String)
  | httpError (text : String)
deriving DecidableEq

/-- Message thrown when the token is missing. -/
def missingTokenMsg : String :=
  "Missing Web3.Storage token. Set NEXT_PUBLIC_WEB3_STORAGE_TOKEN."

/-- Mirrors uploadJSONToIPFS: the token is read from the environment inside the call;
when it is missing the call throws before the fetch. The second component counts the
network attempts made by this call. -/
def uploadJSONToIPFS (env : Env) (fetch : FetchOutcome) (data : String) :
    Except String (String × String) × Nat :=
  match env.token with
  | none => (.error missingTokenMsg, 0)
  | some _ =>
    match fetch with
    | .httpError t => (.error ("IPFS upload failed: " ++ t), 1)
    | .ok cid => (.ok (cid, "https://w3s.link/ipfs/" ++ cid), 1)

/-- Mirrors uploadFilesToIPFS: same structure as uploadJSONToIPFS with a form body. -/
def uploadFilesToIPFS (env : Env) (fetch : FetchOutcome) (files : List SubmitFile) :
    Except String (String × String) × Nat :=
  match env.token with
  | none => (.error missingTokenMsg, 0)
  | some _ =>
    match fetch with
    | .httpError t => (.error ("IPFS upload failed: " ++ t), 1)
    | .ok cid => (.ok (cid, "https://w3s.link/ipfs/" ++ cid), 1)

/-! ### Matching engine (computeMatch, getTopMatches) -/

/-- Experience levels in the order of the array used by computeMatch. -/
inductive ExpLevel where
  | entry
  | mid
  | senior
  | expert
deriving DecidableEq

/-- Position in the array `["Entry","Mid","Senior","Expert"]`, as found by indexOf. -/
def ExpLevel.idx : ExpLevel → Nat
  | .entry => 0
  | .mid => 1
  | .senior => 2
  | .expert => 3

/-- Location preference of the job form. -/
inductive LocationPref where
  | remote
  | onsite
  | hybrid
deriving DecidableEq

/-- Fields of JobFormValues read by computeMatch; budgetMin and budgetMax hold the
values of `parseFloat(job.budgetMin || "0")` as exact rationals. -/
structure JobReq where
  skills : List String
  experience : ExpLevel
  budgetMin : ℚ
  budgetMax : ℚ
  locationPref : LocationPref
deriving DecidableEq

/-- ServiceMock of PostJobPage. -/
structure ServiceMock where
  title : String
  description : String
  skills : List String
  experience : ExpLevel
  priceMin : ℚ
  priceMax : ℚ
  remote : Bool
deriving DecidableEq

/-- Mirrors `job.skills.filter((s) => service.skills.includes(s)).length`. -/
def skillOverlap (job : JobReq) (svc : ServiceMock) : Nat :=
  (job.skills.filter (fun s => svc.skills.contains s)).length

/-- Mirrors `Math.min(100, Math.round((skillOverlap / Math.max(1, job.skills.length)) * 60))`;
with o the overlap and d the guarded denominator, round half up of `o / d * 60` is the
natural number `(120 * o + d) / (2 * d)`. -/
def skillScore (job : JobReq) (svc : ServiceMock) : Nat :=
  min 100 ((120 * skillOverlap job svc + max 1 job.skills.length) / (2 * max 1 job.skills.length))

/-- Mirrors the expScore line of computeMatch: 20 on equal levels, else 10 when the
indexOf value of the job level is at most the indexOf value of the service level, else 5. -/
def expScore (job svc : ExpLevel) : Nat :=
  if job = svc then 20
  else if job.idx ≤ svc.idx then 10 else 5

/-- Mirrors `(service.priceMin >= budgetMin && service.priceMax <= budgetMax) ? 15 : 5`. -/
def budgetFit (job : JobReq) (svc : ServiceMock) : Nat :=
  if job.budgetMin ≤ svc.priceMin ∧ svc.priceMax ≤ job.budgetMax then 15 else 5

/-- Mirrors `job.locationPref === "Remote" ? (service.remote ? 5 : 0) : 0`. -/
def remoteFit (job : JobReq) (svc : ServiceMock) : Nat :=
  if job.locationPref = .remote then (if svc.remote then 5 else 0) else 0

/-- Mirrors computeMatch: `Math.min(100, skillScore + expScore + budgetFit + remoteFit)`. -/
def computeMatch (job : JobReq) (svc : ServiceMock) : Nat :=
  min 100 (skillScore job svc + expScore job.experience svc.experience
    + budgetFit job svc + remoteFit job svc)

/-- The hardcoded candidate catalog MOCK_SERVICES. -/
def MOCK_SERVICES : List ServiceMock :=
  [⟨"Solidity Engineer", "Smart contract development and audits",
      ["Solidity", "Hardhat", "Security"], .senior, 50, 100, true⟩,
   ⟨"Web3 Frontend Dev", "Next.js + Wagmi dApp UIs",
      ["React", "Next.js", "Wagmi", "Viem"], .mid, 35, 70, true⟩,
   ⟨"DeFi Strategist", "Tokenomics and protocol design",
      ["AI/ML", "Design", "Security"], .expert, 80, 150, true⟩]

/-- Candidate together with its computed score, as built by the map step of getTopMatches. -/
structure Matched where
  svc : ServiceMock
  score : Nat
deriving DecidableEq

/-- Scored catalog in input order: `services.map((s) => ({...s, score: computeMatch(job, s)}))`. -/
def scoredList (job : JobReq) (services : List ServiceMock) : List Matched :=
  services.map (fun s => ⟨s, computeMatch job s⟩)

/-- Order used to model the JS stable sort with comparator `(a, b) => b.score - a.score`:
entries are decorated with their input position and compared by higher score first,
ties by lower position first. A stable descending sort returns exactly the list sorted
by this strict lexicographic order. -/
def rankRel : Nat × Matched → Nat × Matched → Prop :=
  fun a b => b.2.score < a.2.score ∨ (a.2.score = b.2.score ∧ a.1 ≤ b.1)

instance : DecidableRel rankRel := fun a b => by
  unfold rankRel
  exact inferInstance

instance : IsTotal (Nat × Matched) rankRel where
  total a b := by
    simp only [rankRel]
    rcases Nat.lt_trichotomy a.2.score b.2.score with h | h | h
    · exact Or.inr (Or.inl h)
    · rcases Nat.le_total a.1 b.1 with h' | h'
      · exact Or.inl (Or.inr ⟨h, h'⟩)
      · exact Or.inr (Or.inr ⟨h.symm, h'⟩)
    · exact Or.inl (Or.inl h)

instance : IsTrans (Nat × Matched) rankRel where
  trans a b c hab hbc := by
    simp only [rankRel] at *
    omega

/-- Comparison by input position only, used to state uniqueness of the sorted list. -/
def posLt : Nat × Matched → Nat × Matched → Prop :=
  fun a b => a.1 < b.1

instance : IsAntisymm (Nat × Matched) posLt where
  antisymm a b h h' := absurd h' (by simpa [posLt] using Nat.lt_asymm h)

/-- The sort-and-truncate step of getTopMatches over an arbitrary catalog:
`.sort((a, b) => b.score - a.score).slice(0, 3)`, with the ES2019 stable sort modelled
through position-decorated entries ordered by rankRel. -/
def rank (job : JobReq) (services : List ServiceMock) : List Matched :=
  ((List.insertionSort rankRel (scoredList job services).enum).map Prod.snd).take 3

/-- Mirrors getTopMatches applied to the hardcoded catalog. -/
def getTopMatches (job : JobReq) : List Matched :=
  rank job MOCK_SERVICES

/-- Round half up on rationals, the reading of Math.round used by the spec for the
nonnegative skill ratio. -/
def roundHalfUp (q : ℚ) : Nat :=
  ⌊q + 1 / 2⌋₊

/-! ### Claim theorems -/

/-- Claim C1, counterexample: with required level Senior and candidate level Entry the
levels differ and the candidate is at or below the required level, so the claim demands
an experience component of 10, but computeMatch yields 5; dually a candidate strictly
above the required level (Expert against Senior) receives 10 where the claim demands 5. -/
theorem expScore_below_counterexample :
    ExpLevel.entry ≠ ExpLevel.senior ∧
    ExpLevel.idx ExpLevel.entry ≤ ExpLevel.idx ExpLevel.senior ∧
    expScore ExpLevel.senior ExpLevel.entry = 5 ∧
    expScore ExpLevel.senior ExpLevel.expert = 10 := by
  decide

/-- Claim C1, amended: for differing levels the experience component of the score is 10
when the candidate level is at or ABOVE the required level on the scale
Entry<Mid<Senior<Expert, and 5 when it is strictly below (20 when the levels are equal
is the first branch of the definition). -/
theorem expScore_at_or_above_ten (req cand : ExpLevel) (h : req ≠ cand) :
    (req.idx ≤ cand.idx → expScore req cand = 10) ∧
    (cand.idx < req.idx → expScore req cand = 5) := by
  simp only [expScore, if_neg h]
  constructor
  · intro h'
    rw [if_pos h']
  · intro h'
    rw [if_neg (by omega)]

/-- Claim C1, witness for the amended statement at Senior requirements against Expert
and against Entry candidates. -/
theorem expScore_at_or_above_ten_witness :
    expScore ExpLevel.senior ExpLevel.expert = 10 ∧
    expScore ExpLevel.senior ExpLevel.entry = 5 :=
  ⟨(expScore_at_or_above_ten ExpLevel.senior ExpLevel.expert (by decide)).1 (by decide),
   (expScore_at_or_above_ten ExpLevel.senior ExpLevel.entry (by decide)).2 (by decide)⟩

/-- Claim C4, counterexample: the token is read inside each upload call, not once at
construction; two distinct upload operations on a token-free environment each raise the
missing-token error afresh, and a call made when the environment does hold a token
succeeds, so resolution happens per call rather than once at process start. -/
theorem credential_per_call_counterexample :
    (uploadJSONToIPFS ⟨none⟩ (.ok "c") "d").1 = .error missingTokenMsg ∧
    (uploadFilesToIPFS ⟨none⟩ (.ok "c") []).1 = .error missingTokenMsg ∧
    (uploadJSONToIPFS ⟨some "tok"⟩ (.ok "c") "d").1
      = .ok ("c", "https://w3s.link/ipfs/" ++ "c") := by
  exact ⟨rfl, rfl, rfl⟩

/-- Claim C4, amended: the credential is read from the environment at each upload call;
every call finding it absent fails with the missing-token error before any network
attempt is made (zero fetches in that call). -/
theorem credential_missing_each_call (env : Env) (fetch : FetchOutcome) (d : String)
    (files : List SubmitFile) (h : env.token = none) :
    uploadJSONToIPFS env fetch d = (.error missingTokenMsg, 0) ∧
    uploadFilesToIPFS env fetch files = (.error missingTokenMsg, 0) := by
  obtain ⟨t⟩ := env
  simp only at h
  subst h
  exact ⟨rfl, rfl⟩

/-- Claim C4, witness for the amended statement on an empty environment. -/
theorem credential_missing_each_call_witness :
    uploadJSONToIPFS ⟨none⟩ (.ok "c") "d" = (.error missingTokenMsg, 0) ∧
    uploadFilesToIPFS ⟨none⟩ (.ok "c") [] = (.error missingTokenMsg, 0) :=
  credential_missing_each_call ⟨none⟩ (.ok "c") "d" [] rfl

/-- Helper for claim C3: in a profile publish run started on an empty call record, a
failing issued batch call leaves the document call record empty and makes the run
return that upload error. -/
theorem publishProfile_abort (ub : Nat → Except String String)
    (ud : ProfileDoc → Except String String) (c : Collected) (i : Nat) (e : String)
    (hi : i < (publishProfile ub ud c ⟨[], []⟩).2.batches.length)
    (he : ub i = .error e) :
    (publishProfile ub ud c ⟨[], []⟩).2.docs = [] ∧
    (publishProfile ub ud c ⟨[], []⟩).1 = .error (.upload e) := by
  by_cases hc : c.certFiles.isEmpty = true <;>
  by_cases hp : c.pfFiles.isEmpty = true <;>
  by_cases hq : c.profilePic.isEmpty = true <;>
  rcases h0 : ub 0 with e0 | v0 <;>
  rcases h1 : ub 1 with e1 | v1 <;>
  rcases h2 : ub 2 with e2 | v2 <;>
  simp [publishProfile, optUpload, docStep, hc, hp, hq, h0, h1, h2, Except.map] at hi ⊢ <;>
  (try interval_cases i) <;> simp_all

/-- Helper for claim C3: the job pipeline analogue of publishProfile_abort. -/
theorem publishJob_abort (ub : Nat → Except String String) (ud : JobDoc → Except String String)
    (files : List SubmitFile) (i : Nat) (e : String)
    (hi : i < (publishJob ub ud files ⟨[], []⟩).2.batches.length)
    (he : ub i = .error e) :
    (publishJob ub ud files ⟨[], []⟩).2.docs = [] ∧
    (publishJob ub ud files ⟨[], []⟩).1 = .error (.upload e) := by
  by_cases hf : files.isEmpty = true <;>
  rcases h0 : ub 0 with e0 | v0 <;>
  simp [publishJob, optUpload, docStep, hf, h0, Except.map] at hi ⊢ <;>
  (try interval_cases i) <;> simp_all

/-- Claim C3: in both publish pipelines, whenever an issued batch upload fails, the
manifest upload is never invoked (the document call record stays empty) and the run
returns exactly the triggering upload error, so no manifest is ever handed back. -/
theorem batch_failure_blocks_manifest :
    (∀ (ub : Nat → Except String String) (ud : ProfileDoc → Except String String)
        (c : Collected) (i : Nat) (e : String),
      i < (publishProfile ub ud c ⟨[], []⟩).2.batches.length → ub i = .error e →
      (publishProfile ub ud c ⟨[], []⟩).2.docs = [] ∧
      (publishProfile ub ud c ⟨[], []⟩).1 = .error (.upload e)) ∧
    (∀ (ub : Nat → Except String String) (ud : JobDoc → Except String String)
        (files : List SubmitFile) (i : Nat) (e : String),
      i < (publishJob ub ud files ⟨[], []⟩).2.batches.length → ub i = .error e →
      (publishJob ub ud files ⟨[], []⟩).2.docs = [] ∧
      (publishJob ub ud files ⟨[], []⟩).1 = .error (.upload e)) :=
  ⟨fun ub ud c i e hi he => publishProfile_abort ub ud c i e hi he,
   fun ub ud files i e hi he => publishJob_abort ub ud files i e hi he⟩

/-- Claim C3, witness: with a storage double whose batch upload always fails, a profile
publish with one certification and a job publish with one attachment both record zero
document calls and surface the batch error. -/
theorem batch_failure_blocks_manifest_witness :
    ((publishProfile (fun _ => .error "down") (fun _ => .ok "cid")
        ⟨[⟨"c", 1⟩], [], []⟩ ⟨[], []⟩).2.docs = [] ∧
      (publishProfile (fun _ => .error "down") (fun _ => .ok "cid")
        ⟨[⟨"c", 1⟩], [], []⟩ ⟨[], []⟩).1 = .error (.upload "down")) ∧
    ((publishJob (fun _ => .error "down") (fun _ => .ok "cid")
        [⟨"a", 1⟩] ⟨[], []⟩).2.docs = [] ∧
      (publishJob (fun _ => .error "down") (fun _ => .ok "cid")
        [⟨"a", 1⟩] ⟨[], []⟩).1 = .error (.upload "down")) :=
  ⟨batch_failure_blocks_manifest.1 (fun _ => .error "down") (fun _ => .ok "cid")
      ⟨[⟨"c", 1⟩], [], []⟩ 0 "down" (by decide) rfl,
   batch_failure_blocks_manifest.2 (fun _ => .error "down") (fun _ => .ok "cid")
      [⟨"a", 1⟩] 0 "down" (by decide) rfl⟩

/-- Claim C5: a validation failure makes onSubmit return before the try block, so the
run ends with the validation error and an empty call record: zero uploadFilesToIPFS
calls and zero uploadJSONToIPFS calls, in both the profile and the job pipeline. -/
theorem validation_failure_zero_uploads :
    (∀ (ub : Nat → Except String String) (ud : ProfileDoc → Except String String)
        (certs pfs pics : List SubmitFile) (e : AttErr),
      profileValidate certs pfs pics = .error e →
      onSubmitProfile ub ud certs pfs pics = (.error (.validation e), ⟨[], []⟩)) ∧
    (∀ (ub : Nat → Except String String) (ud : JobDoc → Except String String)
        (files : List SubmitFile) (e : AttErr),
      jobValidate files = .error e →
      onSubmitJob ub ud files = (.error (.validation e), ⟨[], []⟩)) := by
  constructor
  · intro ub ud certs pfs pics e h
    unfold onSubmitProfile
    rw [h]
  · intro ub ud files e h
    unfold onSubmitJob
    rw [h]

/-- Claim C5, witness: an oversized certification and an oversized job attachment each
abort their pipeline with the validation error and an empty call record. -/
theorem validation_failure_zero_uploads_witness :
    onSubmitProfile (fun _ => .ok "cid") (fun _ => .ok "cid")
        [⟨"big", 5 * 1024 * 1024 + 1⟩] [] []
      = (.error (.validation .certTooLarge), ⟨[], []⟩) ∧
    onSubmitJob (fun _ => .ok "cid") (fun _ => .ok "cid")
        [⟨"big", 10 * 1024 * 1024 + 1⟩]
      = (.error (.validation .jobAttachTooLarge), ⟨[], []⟩) :=
  ⟨validation_failure_zero_uploads.1 _ _ _ _ _ _ (by decide),
   validation_failure_zero_uploads.2 _ _ _ _ (by decide)⟩

/-- Claim C2, counterexample: eleven small portfolio files pass validation (no
tooManyFiles check exists in the code), the submission proceeds, and the issued batch
holds only the first ten of them: the eleventh file is silently dropped. -/
theorem portfolio_excess_counterexample :
    profileValidate [] (List.replicate 11 ⟨"p", 1⟩) []
      = .ok ⟨[], List.replicate 11 ⟨"p", 1⟩, []⟩ ∧
    (onSubmitProfile (fun _ => .ok "cid") (fun _ => .ok "cid")
        [] (List.replicate 11 ⟨"p", 1⟩) []).2.batches
      = [List.replicate 10 ⟨"p", 1⟩] ∧
    List.replicate 10 (⟨"p", 1⟩ : SubmitFile) ≠ List.replicate 11 ⟨"p", 1⟩ := by
  refine ⟨by decide, by decide, by decide⟩

/-- Claim C2, amended: the code performs no per-role file-count validation; a portfolio
batch with more than ten files, each within the size limit, passes validation with all
its files collected, and the one upload call issued for the role receives only the
first ten files, silently dropping the excess instead of failing. -/
theorem portfolio_excess_truncated (ub : Nat → Except String String)
    (ud : ProfileDoc → Except String String) (pfs : List SubmitFile)
    (hlen : 10 < pfs.length) (hok : ∀ f ∈ pfs, checkSize f 5 = true) :
    profileValidate [] pfs [] = .ok ⟨[], pfs, []⟩ ∧
    (onSubmitProfile ub ud [] pfs []).2.batches = [pfs.take 10] ∧
    (pfs.take 10).length = 10 := by
  have hfind : pfs.find? (fun f => !checkSize f 5) = none := by
    rw [List.find?_eq_none]
    intro f hf
    simp [hok f hf]
  have hval : profileValidate [] pfs [] = .ok ⟨[], pfs, []⟩ := by
    unfold profileValidate
    rw [List.find?_nil, hfind]
  have hne : pfs.isEmpty = false := by
    cases pfs
    · simp at hlen
    · rfl
  refine ⟨hval, ?_, by rw [List.length_take]; omega⟩
  unfold onSubmitProfile
  rw [hval]
  rcases h0 : ub 0 with e | v <;>
    simp [publishProfile, optUpload, docStep, hne, h0, Except.map]

/-- Claim C2, witness for the amended statement on eleven one-byte portfolio files. -/
theorem portfolio_excess_truncated_witness :
    profileValidate [] (List.replicate 11 ⟨"p", 1⟩) []
      = .ok ⟨[], List.replicate 11 ⟨"p", 1⟩, []⟩ ∧
    (onSubmitProfile (fun _ => .error "down") (fun _ => .ok "cid")
        [] (List.replicate 11 ⟨"p", 1⟩) []).2.batches
      = [(List.replicate 11 (⟨"p", 1⟩ : SubmitFile)).take 10] ∧
    ((List.replicate 11 (⟨"p", 1⟩ : SubmitFile)).take 10).length = 10 :=
  portfolio_excess_truncated (fun _ => .error "down") (fun _ => .ok "cid")
    (List.replicate 11 ⟨"p", 1⟩) (by decide) (by decide)

/-- Helper for claim C6: position-decorated entries carry strictly increasing
positions. -/
theorem enum_pairwise_fst_lt {α : Type} (l : List α) :
    l.enum.Pairwise (fun a b => a.1 < b.1) := by
  have h := List.pairwise_lt_range l.length
  rw [← List.enum_map_fst l] at h
  exact List.pairwise_map.mp h

/-- Claim C6: for every requirements value and candidate list, rank returns at most
three entries, the returned totals are non-increasing, and for every total t the
returned entries of that total form a sublist of the input-ordered scored list, so
candidates with equal total keep their relative input order (the stability of the
ES2019 sort, modelled through the position-lexicographic order rankRel). -/
theorem rank_topk_sorted_stable (job : JobReq) (services : List ServiceMock) (t : Nat) :
    (rank job services).length ≤ 3 ∧
    (rank job services).Pairwise (fun a b => b.score ≤ a.score) ∧
    List.Sublist ((rank job services).filter (fun m => m.score == t))
      ((scoredList job services).filter (fun m => m.score == t)) := by
  set L := (scoredList job services).enum with hL
  set S := List.insertionSort rankRel L with hS
  have hrank : rank job services = (S.map Prod.snd).take 3 := rfl
  have hsorted : List.Sorted rankRel S := List.sorted_insertionSort rankRel L
  have hperm : S.Perm L := List.perm_insertionSort rankRel L
  have hlen : (rank job services).length ≤ 3 := by
    rw [hrank, List.length_take]
    exact min_le_left 3 _
  have hdesc : (rank job services).Pairwise (fun a b => b.score ≤ a.score) := by
    rw [hrank]
    apply List.Pairwise.sublist (List.take_sublist 3 _)
    rw [List.pairwise_map]
    refine List.Pairwise.imp ?_ hsorted
    intro a b hab
    rcases hab with h | ⟨h, _⟩
    · exact le_of_lt h
    · exact le_of_eq h.symm
  set p : Nat × Matched → Bool := fun x => x.2.score == t with hp
  have hfp : (S.filter p).Perm (L.filter p) := hperm.filter p
  have hSnodup : (S.map Prod.fst).Nodup := by
    rw [List.Perm.nodup_iff (hperm.map Prod.fst)]
    rw [hL, List.enum_map_fst]
    exact List.nodup_range _
  have hfilterS : (S.filter p).Pairwise posLt := by
    have h1 : (S.filter p).Pairwise rankRel :=
      List.Pairwise.sublist (List.filter_sublist _) hsorted
    have h2 : (S.filter p).Pairwise (fun a b => a.1 ≤ b.1) := by
      refine List.Pairwise.imp_of_mem ?_ h1
      intro a b ha hb hab
      have hat : a.2.score = t := by simpa [hp] using List.of_mem_filter ha
      have hbt : b.2.score = t := by simpa [hp] using List.of_mem_filter hb
      rcases hab with h | ⟨_, h⟩
      · omega
      · exact h
    have h3 : (S.filter p).Pairwise (fun a b => a.1 ≠ b.1) := by
      have hnd : ((S.filter p).map Prod.fst).Nodup :=
        List.Nodup.sublist (List.Sublist.map Prod.fst (List.filter_sublist _)) hSnodup
      exact List.pairwise_map.mp hnd
    refine List.Pairwise.imp ?_ (h2.and h3)
    intro a b h
    exact lt_of_le_of_ne h.1 h.2
  have hfilterL : (L.filter p).Pairwise posLt := by
    refine List.Pairwise.sublist (List.filter_sublist _) ?_
    rw [hL]
    exact enum_pairwise_fst_lt _
  have heq : S.filter p = L.filter p :=
    List.eq_of_perm_of_sorted hfp hfilterS hfilterL
  have e1 : ((S.map Prod.snd).filter (fun m => m.score == t))
      = ((scoredList job services).filter (fun m => m.score == t)) := by
    rw [List.filter_map]
    rw [show ((fun (m : Matched) => m.score == t) ∘ Prod.snd) = p from rfl]
    rw [heq, hL]
    rw [show p = ((fun (m : Matched) => m.score == t) ∘ Prod.snd) from rfl]
    rw [← List.filter_map, List.enum_map_snd]
  refine ⟨hlen, hdesc, ?_⟩
  rw [hrank]
  have hsub : List.Sublist (((S.map Prod.snd).take 3).filter (fun m => m.score == t))
      ((S.map Prod.snd).filter (fun m => m.score == t)) :=
    List.Sublist.filter _ (List.take_sublist 3 _)
  rw [e1] at hsub
  exact hsub

/-- Claim C7: the total returned by computeMatch is exactly
min(100, skill + experience + budget + remote) and always lies in [0, 100] (the value
is a natural number, hence nonnegative, and is capped by the outer min at 100), for
every requirements value and candidate, including empty skill sets on either side. -/
theorem computeMatch_total_bounds (job : JobReq) (svc : ServiceMock) :
    computeMatch job svc
      = min 100 (skillScore job svc + expScore job.experience svc.experience
          + budgetFit job svc + remoteFit job svc) ∧
    computeMatch job svc ≤ 100 :=
  ⟨rfl, Nat.min_le_left 100 _⟩

/-- Claim C8: the skill component equals round(intersection size / max(1, required
size) times 60) with round half up, never exceeds 60 (so the min(100, .) written in
the source never binds), and is 0 when the requirements skill list is empty. The
intersection is List.inter, which is exactly the filter-by-membership of the source. -/
theorem skillScore_round_spec (job : JobReq) (svc : ServiceMock) :
    skillScore job svc
      = roundHalfUp (((job.skills ∩ svc.skills).length : ℚ)
          / ((max 1 job.skills.length : Nat) : ℚ) * 60) ∧
    skillScore job svc ≤ 60 ∧
    (job.skills = [] → skillScore job svc = 0) := by
  set o := skillOverlap job svc with ho_def
  set d := max 1 job.skills.length with hd_def
  have h1 : (job.skills ∩ svc.skills).length = o := rfl
  have hd : 1 ≤ d := le_max_left 1 _
  have ho : o ≤ d := by
    have := List.length_filter_le (fun s => svc.skills.contains s) job.skills
    calc o ≤ job.skills.length := this
    _ ≤ d := le_max_right 1 _
  have hraw : (120 * o + d) / (2 * d) ≤ 60 := by
    have hlt : (120 * o + d) / (2 * d) < 61 := by
      rw [Nat.div_lt_iff_lt_mul (by omega : 0 < 2 * d)]
      omega
    omega
  have hmin : skillScore job svc = (120 * o + d) / (2 * d) := by
    have hs : skillScore job svc = min 100 ((120 * o + d) / (2 * d)) := rfl
    rw [hs]
    exact min_eq_right (by omega)
  have hd0 : ((d : Nat) : ℚ) ≠ 0 := Nat.cast_ne_zero.mpr (by omega)
  have hcast : (o : ℚ) / ((d : Nat) : ℚ) * 60 + 1 / 2
      = (((120 * o + d : Nat)) : ℚ) / (((2 * d : Nat)) : ℚ) := by
    push_cast
    field_simp
    ring
  have hfloor : roundHalfUp ((o : ℚ) / ((d : Nat) : ℚ) * 60) = (120 * o + d) / (2 * d) := by
    unfold roundHalfUp
    rw [hcast, Nat.floor_div_nat, Nat.floor_natCast]
  refine ⟨?_, by rw [hmin]; exact hraw, ?_⟩
  · rw [h1, hmin, hfloor]
  · intro h
    simp [skillScore, skillOverlap, h]

/-- Claim C8, witness at an empty requirements skill list: the skill component is 0. -/
theorem skillScore_round_spec_witness :
    skillScore ⟨[], .entry, 0, 0, .remote⟩ ⟨"t", "d", ["A"], .entry, 0, 0, true⟩ = 0 :=
  (skillScore_round_spec ⟨[], .entry, 0, 0, .remote⟩
    ⟨"t", "d", ["A"], .entry, 0, 0, true⟩).2.2 rfl

/-- Claim C9: a file whose size equals the limit is accepted by checkSize and by the
job attachment loop, while one byte more is rejected: the size boundary is inclusive
in both pipelines. -/
theorem size_boundary_inclusive (n : String) (m : Nat) :
    checkSize ⟨n, m * 1024 * 1024⟩ m = true ∧
    checkSize ⟨n, m * 1024 * 1024 + 1⟩ m = false ∧
    jobValidate [⟨"attachment", 10 * 1024 * 1024⟩]
      = .ok [⟨"attachment", 10 * 1024 * 1024⟩] ∧
    jobValidate [⟨"attachment", 10 * 1024 * 1024 + 1⟩] = .error .jobAttachTooLarge := by
  refine ⟨?_, ?_, rfl, rfl⟩
  · simp [checkSize]
  · simp [checkSize]

/-- Claim C10: the experience component is never below 5, the budget component is never
below 5, and therefore every computed match total is at least 10, for every
requirements value and candidate. -/
theorem computeMatch_min_ten (job : JobReq) (svc : ServiceMock) :
    5 ≤ expScore job.experience svc.experience ∧
    5 ≤ budgetFit job svc ∧
    10 ≤ computeMatch job svc := by
  have he : 5 ≤ expScore job.experience svc.experience := by
    simp only [expScore]
    split
    · omega
    · split <;> omega
  have hb : 5 ≤ budgetFit job svc := by
    simp only [budgetFit]
    split <;> omega
  refine ⟨he, hb, ?_⟩
  simp only [computeMatch]
  exact le_min (by omega) (by omega)

end EscrowX
